import Mathlib

/-!
Verification of the hw3-rgbcal firmware core: the software-PWM driver
(src/rgb.rs), the knob sampling pipeline (src/knob.rs), the button-driven
control loop (src/ui.rs), the LED-matrix readout (src/levelmeter.rs) and the
shared state store (src/main.rs), shallowly embedded in Lean.

Machine integers (u32, u64) are modelled as Nat; where a claim could reach a
wrap-around, the reduction modulo 2 ^ 32 is written explicitly.  The f32
arithmetic in knob.rs and levelmeter.rs is modelled exactly over the rationals:
every claimed property of those pipelines (range membership after a clamp and
floor, the value of a ceiling of a small dyadic or exactly-representable
quotient) is invariant under the rounding f32 performs on the values that can
occur there, so the rational model and the f32 code agree on everything stated
below.
-/

namespace RgbCal

/-- main.rs line 33: number of brightness levels for each RGB value. -/
def LEVELS : Nat := 16

/-- knob.rs line 37: the raw i16 ADC sample clamped to the range
0 to 0x7fff and reinterpreted as an unsigned value. -/
def knobRaw (s : Int) : Nat := (max 0 (min s 0x7fff)).toNat

/-- knob.rs lines 30 to 49, Knob::measure applied to a raw sample: clamp the
sample, normalize by the fixed divisor 10000, remap affinely by
(LEVELS + 2) * scaled - 2, clamp to the range 0 to LEVELS - 1, floor, and
convert to an unsigned integer.  The f32 steps are modelled exactly over the
rationals. -/
def knobMeasure (s : Int) : Nat :=
  let raw : ℚ := (knobRaw s : ℚ)
  let scaled : ℚ := raw / 10000
  let result : ℚ := max 0 (min (((LEVELS : ℚ) + 2) * scaled - 2) ((LEVELS : ℚ) - 1))
  (Int.floor result).toNat

/-- ui.rs lines 124 to 127, Ui::frame_rate_from_level: scale a knob level to a
frame rate, (level + 1) * 10 in u32 arithmetic. -/
def frame_rate_from_level (level : Nat) : Nat := ((level + 1) * 10) % 2 ^ 32

/-- rgb.rs lines 24 to 27, Rgb::frame_tick_time: tick duration in microseconds
derived from a frame rate by integer division. -/
def frame_tick_time (frame_rate : Nat) : Nat :=
  1000000 / (3 * frame_rate * LEVELS)

/-- ui.rs lines 3 to 9: the four button-combination states. -/
inductive ButtonPressed
  | neither
  | a
  | b
  | both
deriving DecidableEq, Repr

/-- ui.rs lines 11 to 17: the four control targets. -/
inductive Control
  | redLed
  | greenLed
  | blueLed
  | frameRate
deriving DecidableEq, Repr

/-- ui.rs lines 101 to 112, Ui::button_state: buttons are active-low, so a
pin reading low means pressed.  The two Booleans are the is_low readings of
buttons A and B. -/
def button_state (a_low b_low : Bool) : ButtonPressed :=
  match a_low, b_low with
  | true, true => ButtonPressed.both
  | true, false => ButtonPressed.a
  | false, true => ButtonPressed.b
  | false, false => ButtonPressed.neither

/-- ui.rs lines 150 to 155: the match in Ui::run choosing the control target
from the button state. -/
def controlFromButtons (bp : ButtonPressed) : Control :=
  match bp with
  | ButtonPressed.both => Control.redLed
  | ButtonPressed.a => Control.blueLed
  | ButtonPressed.b => Control.greenLed
  | ButtonPressed.neither => Control.frameRate

/-- An action the PWM driver performs on a single GPIO pin: drive it high,
drive it low, or wait a number of microseconds. -/
inductive PinAction
  | setHigh
  | setLow
  | waitMicros (t : Nat)
deriving DecidableEq, Repr

/-- rgb.rs lines 58 to 89, Rgb::step for one channel, as the sequence of pin
actions it performs: if level > 0, set the pin high, wait
level * tick_time microseconds, set it low; then if LEVELS - level > 0, wait
(LEVELS - level) * tick_time microseconds. -/
def step (level tick_time : Nat) : List PinAction :=
  (if 0 < level then
    [PinAction.setHigh, PinAction.waitMicros (level * tick_time), PinAction.setLow]
   else []) ++
  (if 0 < LEVELS - level then
    [PinAction.waitMicros ((LEVELS - level) * tick_time)]
   else [])

/-- Cumulative (high, low) dwell times of a pin over a list of actions,
starting from the given pin state (true = high). -/
def traceTimes (pin : Bool) : List PinAction → Nat × Nat
  | [] => (0, 0)
  | PinAction.setHigh :: rest => traceTimes true rest
  | PinAction.setLow :: rest => traceTimes false rest
  | PinAction.waitMicros t :: rest =>
      let hl := traceTimes pin rest
      if pin then (hl.1 + t, hl.2) else (hl.1, hl.2 + t)

/-- Total elapsed time of a list of pin actions in microseconds. -/
def traceDuration : List PinAction → Nat
  | [] => 0
  | PinAction.waitMicros t :: rest => t + traceDuration rest
  | _ :: rest => traceDuration rest

/-- Pin state after executing a list of actions from the given initial state. -/
def finalPin (pin : Bool) : List PinAction → Bool
  | [] => pin
  | PinAction.setHigh :: rest => finalPin true rest
  | PinAction.setLow :: rest => finalPin false rest
  | PinAction.waitMicros _ :: rest => finalPin pin rest

/-- The shared state store of main.rs: the RGB_LEVELS mutex (an array of 3
u32 levels) and the FRAME_RATE mutex (a u64), viewed together as the single
logical record the two loops communicate through. -/
structure SharedState where
  levels : Fin 3 → Nat
  frame_rate : Nat

/-- main.rs lines 29 to 31: the initial contents of the shared state store,
RGB_LEVELS = Mutex::new([0; 3]) and FRAME_RATE = Mutex::new(100), in place
before either loop runs. -/
def initialStore : SharedState where
  levels := ![0, 0, 0]
  frame_rate := 100

/-- rgb.rs lines 7 to 12: the shadow variables the Rgb driver keeps between
passes (the pins themselves are modelled by the emitted events). -/
structure Rgb where
  levels : Fin 3 → Nat
  tick_time : Nat

/-- One observable event of the PWM driver loop: a read of the levels from the
store, a read of the frame rate from the store, or the per-channel step with
the level and tick time it uses (whose pin actions are given by step). -/
inductive DriverEvent
  | readLevels (ls : Fin 3 → Nat)
  | readFrameRate (fr : Nat)
  | stepChannel (led : Fin 3) (level tick_time : Nat)

/-- rgb.rs lines 94 to 110, one iteration of the Rgb::run loop: refresh the
shadow levels from the store, refresh the tick time from the store frame
rate, then step the three channels in order using the shadow variables.
Returns the updated driver state and the events of the pass in order. -/
def rgbRunPass (rgb : Rgb) (store : SharedState) : Rgb × List DriverEvent :=
  let levels := store.levels
  let tick_time := frame_tick_time store.frame_rate
  let rgb1 : Rgb := { rgb with levels := levels, tick_time := tick_time }
  (rgb1,
    [DriverEvent.readLevels levels, DriverEvent.readFrameRate store.frame_rate] ++
      (List.finRange 3).map (fun led =>
        DriverEvent.stepChannel led (rgb1.levels led) rgb1.tick_time))

/-- Total duration of one full 3-channel pass driven from a store snapshot:
the sum of the durations of the three per-channel steps. -/
def passDuration (store : SharedState) : Nat :=
  ((List.finRange 3).map (fun led =>
    traceDuration (step (store.levels led) (frame_tick_time store.frame_rate)))).sum

/-- ui.rs lines 20 to 23: the cached UI state, the levels and frame rate last
applied by the control loop. -/
structure UiState where
  levels : Fin 3 → Nat
  frame_rate : Nat

/-- ui.rs lines 53 to 58, UiState::default: levels [15, 4, 6] and frame rate
100.  This is the default of the cached UI state owned by the control loop. -/
def uiStateDefault : UiState where
  levels := ![15, 4, 6]
  frame_rate := 100

/-- The externally visible effects of one control-loop iteration: the new
cached state, the control_changed flag, the values written to the RGB_LEVELS
mutex and to the FRAME_RATE mutex (in order), and the number of status
reports printed. -/
structure UiIterResult where
  state : UiState
  control_changed : Bool
  rgbWrites : List (Fin 3 → Nat)
  frWrites : List Nat
  reports : Nat

/-- ui.rs lines 141 to 208, one iteration of the Ui::run loop, given the
knob measurement of this iteration and the is_low readings of the two
buttons: select the control from the button state, update the matching field
of the cached state when the computed value differs, and if anything changed
print one status report, write the cached levels into the RGB_LEVELS mutex
once and the cached frame rate into the FRAME_RATE mutex once. -/
def uiIteration (st : UiState) (a_low b_low : Bool) (level : Nat) : UiIterResult :=
  let control := controlFromButtons (button_state a_low b_low)
  let upd : UiState × Bool :=
    match control with
    | Control.redLed =>
        if level ≠ st.levels 0 then
          ({ st with levels := Function.update st.levels 0 level }, true)
        else (st, false)
    | Control.greenLed =>
        if level ≠ st.levels 1 then
          ({ st with levels := Function.update st.levels 1 level }, true)
        else (st, false)
    | Control.blueLed =>
        if level ≠ st.levels 2 then
          ({ st with levels := Function.update st.levels 2 level }, true)
        else (st, false)
    | Control.frameRate =>
        let frame_rate := frame_rate_from_level level
        if frame_rate ≠ st.frame_rate then
          ({ st with frame_rate := frame_rate }, true)
        else (st, false)
  if upd.2 then
    { state := upd.1
      control_changed := true
      rgbWrites := [upd.1.levels]
      frWrites := [upd.1.frame_rate]
      reports := 1 }
  else
    { state := upd.1
      control_changed := false
      rgbWrites := []
      frWrites := []
      reports := 0 }

/-- The store contents after one control-loop iteration: ui.rs lines 192 to
201 overwrite the whole levels array and the frame rate inside the guarded
block, so the store afterwards holds the cached state when a change occurred
and is untouched otherwise. -/
def storeAfterUiIteration (store : SharedState) (res : UiIterResult) : SharedState :=
  if res.control_changed then
    { levels := res.state.levels, frame_rate := res.state.frame_rate }
  else store

/-- levelmeter.rs line 43: cells lit for a channel level,
ceil(level * 5 / LEVELS), the f32 arithmetic modelled exactly over the
rationals (level * 5 / 16 is dyadic, so f32 computes it exactly). -/
def lit_leds (level : Nat) : Nat :=
  (Int.ceil ((level : ℚ) * 5 / (LEVELS : ℚ))).toNat

/-- levelmeter.rs line 56: cells lit for the frame rate,
ceil((frame_rate - 10) * 5 / (160 - 10)), over the rationals; the `as usize`
cast maps a negative ceiling to 0, as Int.toNat does. -/
def frame_rate_leds (frame_rate : Nat) : Nat :=
  (Int.ceil (((frame_rate : ℚ) - 10) * 5 / (160 - 10))).toNat

/-- A 5x5 display frame: true at (col, row) means the cell is lit. -/
def Frame : Type := Fin 5 → Fin 5 → Bool

/-- Frame::default: all cells off. -/
def emptyFrame : Frame := fun _ _ => false

/-- frame.set(col, row): light one cell of the frame. -/
def framePixelSet (f : Frame) (c r : Fin 5) : Frame :=
  fun c1 r1 => if c1 = c ∧ r1 = r then true else f c1 r1

/-- levelmeter.rs lines 46 to 52 and 59 to 62: light n cells of one column
from the bottom row upward, setting row 4 - idx for each idx < n. -/
def lightColumn (f : Frame) (col : Fin 5) (n : Nat) : Frame :=
  (List.range n).foldl
    (fun g idx => framePixelSet g col ⟨4 - idx, by omega⟩) f

/-- levelmeter.rs lines 31 to 67, LevelMeter::update_display: build the frame
lit for the given levels and frame rate.  Channel i uses column i; the frame
rate uses column 4. -/
def update_display (levels : Fin 3 → Nat) (frame_rate : Nat) : Frame :=
  let f := (List.finRange 3).foldl
    (fun g i => lightColumn g (Fin.castLE (by omega) i) (lit_leds (levels i)))
    emptyFrame
  lightColumn f 4 (frame_rate_leds frame_rate)

/-- Dwell times of one per-channel step starting from a low pin: high for
level * t, low for (LEVELS - level) * t microseconds. -/
theorem step_traceTimes (level t : Nat) (hl : level < LEVELS) :
    traceTimes false (step level t) = (level * t, (LEVELS - level) * t) := by
  have hsub : 0 < LEVELS - level := by
    unfold LEVELS at hl ⊢
    omega
  rcases Nat.eq_zero_or_pos level with h0 | hpos
  · subst h0
    simp [step, traceTimes, hsub]
  · simp [step, traceTimes, hpos, hsub, Nat.pos_iff_ne_zero]

/-- Total duration of one per-channel step: the full LEVELS * t budget. -/
theorem step_traceDuration (level t : Nat) (hl : level < LEVELS) :
    traceDuration (step level t) = LEVELS * t := by
  have hsub : 0 < LEVELS - level := by
    unfold LEVELS at hl ⊢
    omega
  rcases Nat.eq_zero_or_pos level with h0 | hpos
  · subst h0
    simp [step, traceDuration, hsub]
  · simp [step, traceDuration, hpos, hsub, Nat.pos_iff_ne_zero]
    rw [← Nat.add_mul]
    congr 1
    unfold LEVELS at hl ⊢
    omega

/-- C1: for every level in [0, LEVELS-1] and every positive frame rate, one
call of Rgb::step holds the pin high for exactly level * tick_time
microseconds and low for (LEVELS - level) * tick_time microseconds, so one
step lasts LEVELS * tick_time and one full 3-channel pass lasts
3 * LEVELS * tick_time microseconds. -/
theorem step_timing_exact (level fr : Nat) (hl : level < LEVELS) (_hfr : 0 < fr) :
    (traceTimes false (step level (frame_tick_time fr))).1
        = level * frame_tick_time fr ∧
    (traceTimes false (step level (frame_tick_time fr))).2
        = (LEVELS - level) * frame_tick_time fr ∧
    traceDuration (step level (frame_tick_time fr)) = LEVELS * frame_tick_time fr ∧
    (∀ store : SharedState, (∀ i, store.levels i < LEVELS) →
      store.frame_rate = fr →
      passDuration store = 3 * (LEVELS * frame_tick_time fr)) := by
  refine ⟨?_, ?_, step_traceDuration level _ hl, ?_⟩
  · rw [step_traceTimes level _ hl]
  · rw [step_traceTimes level _ hl]
  · intro store hlev hfrs
    unfold passDuration
    rw [show List.finRange 3 = [0, 1, 2] from rfl]
    simp only [List.map_cons, List.map_nil, List.sum_cons, List.sum_nil, hfrs]
    rw [step_traceDuration _ _ (hlev 0), step_traceDuration _ _ (hlev 1),
      step_traceDuration _ _ (hlev 2)]
    ring

/-- C1 witness at level 5, frame rate 100. -/
theorem step_timing_exact_witness :
    (5 : Nat) < LEVELS ∧ (0 : Nat) < 100 ∧
    (traceTimes false (step 5 (frame_tick_time 100))).1 = 5 * frame_tick_time 100 :=
  ⟨by decide, by decide, (step_timing_exact 5 100 (by decide) (by decide)).1⟩

/-- C10: one Rgb::step started with the pin low leaves it low when it
completes; the step drives the pin high if and only if the level is strictly
positive; and a step at level 0 performs no GPIO transition at all, waiting
out the whole LEVELS * tick_time slot. -/
theorem step_pin_invariant (level t : Nat) (hl : level < LEVELS) :
    finalPin false (step level t) = false ∧
    (PinAction.setHigh ∈ step level t ↔ 0 < level) ∧
    (level = 0 → step level t = [PinAction.waitMicros (LEVELS * t)]) := by
  have hsub : 0 < LEVELS - level := by
    unfold LEVELS at hl ⊢
    omega
  refine ⟨?_, ?_, ?_⟩
  · rcases Nat.eq_zero_or_pos level with h0 | hpos
    · subst h0
      simp [step, finalPin, hsub]
    · simp [step, finalPin, hpos, hsub, Nat.pos_iff_ne_zero]
  · rcases Nat.eq_zero_or_pos level with h0 | hpos
    · subst h0
      simp [step, hsub]
    · simp [step, hpos, hsub, Nat.pos_iff_ne_zero]
  · intro h0
    subst h0
    simp [step]
    decide

/-- C10 witness at level 0. -/
theorem step_pin_invariant_witness :
    (0 : Nat) < LEVELS ∧
    step 0 7 = [PinAction.waitMicros (LEVELS * 7)] :=
  ⟨by decide, (step_pin_invariant 0 7 (by decide)).2.2 rfl⟩

/-- C2: one iteration of Rgb::run reads the levels and the frame rate from
the shared store exactly once each, before any of the three channel steps;
all three steps of the pass are driven from that single snapshot (the events
do not depend on the shadow state left by earlier passes), and a store write
is visible no later than the start of the next pass: a second pass over an
updated store drives every channel from the updated values. -/
theorem run_pass_snapshot (rgb : Rgb) (store store2 : SharedState) :
    (rgbRunPass rgb store).2 =
      [DriverEvent.readLevels store.levels,
       DriverEvent.readFrameRate store.frame_rate,
       DriverEvent.stepChannel 0 (store.levels 0) (frame_tick_time store.frame_rate),
       DriverEvent.stepChannel 1 (store.levels 1) (frame_tick_time store.frame_rate),
       DriverEvent.stepChannel 2 (store.levels 2) (frame_tick_time store.frame_rate)] ∧
    (rgbRunPass ((rgbRunPass rgb store).1) store2).2 =
      [DriverEvent.readLevels store2.levels,
       DriverEvent.readFrameRate store2.frame_rate,
       DriverEvent.stepChannel 0 (store2.levels 0) (frame_tick_time store2.frame_rate),
       DriverEvent.stepChannel 1 (store2.levels 1) (frame_tick_time store2.frame_rate),
       DriverEvent.stepChannel 2 (store2.levels 2) (frame_tick_time store2.frame_rate)] :=
  ⟨rfl, rfl⟩

/-- C3: for every raw ADC sample in [-32768, 32767], Knob::measure (clamp,
scale by the fixed divisor, affine remap with clamp and floor) returns a
level in [0, LEVELS - 1]; no input is rejected or yields an out-of-range
level. -/
theorem knobMeasure_in_range (s : Int) (_h1 : -32768 ≤ s) (_h2 : s ≤ 32767) :
    knobMeasure s ≤ LEVELS - 1 := by
  show (Int.floor (max 0 (min (((LEVELS : ℚ) + 2) * ((knobRaw s : ℚ) / 10000) - 2)
      ((LEVELS : ℚ) - 1)))).toNat ≤ LEVELS - 1
  rw [Int.toNat_le]
  have hx : max 0 (min (((LEVELS : ℚ) + 2) * ((knobRaw s : ℚ) / 10000) - 2)
      ((LEVELS : ℚ) - 1)) ≤ ((LEVELS : ℚ) - 1) := by
    apply max_le
    · norm_num [LEVELS]
    · exact min_le_right _ _
  calc Int.floor (max 0 (min (((LEVELS : ℚ) + 2) * ((knobRaw s : ℚ) / 10000) - 2)
        ((LEVELS : ℚ) - 1)))
      ≤ Int.floor ((LEVELS : ℚ) - 1) := Int.floor_le_floor hx
    _ ≤ ((LEVELS - 1 : Nat) : Int) := by norm_num [LEVELS]

/-- C3 witness at sample 20000. -/
theorem knobMeasure_in_range_witness :
    -32768 ≤ (20000 : Int) ∧ (20000 : Int) ≤ 32767 ∧ knobMeasure 20000 ≤ LEVELS - 1 :=
  ⟨by decide, by decide, knobMeasure_in_range 20000 (by decide) (by decide)⟩

/-- C4: each of the four button combinations selects exactly one control
target: neither pressed selects the frame rate, A alone selects blue, B
alone selects green, both together select red, which differs from the target
of either button alone.  Buttons are active-low: the Booleans fed to
button_state are the is_low readings. -/
theorem button_control_mapping :
    controlFromButtons (button_state false false) = Control.frameRate ∧
    controlFromButtons (button_state true false) = Control.blueLed ∧
    controlFromButtons (button_state false true) = Control.greenLed ∧
    controlFromButtons (button_state true true) = Control.redLed ∧
    controlFromButtons (button_state true true) ≠ controlFromButtons (button_state true false) ∧
    controlFromButtons (button_state true true) ≠ controlFromButtons (button_state false true) := by
  decide

/-- C6: the frame-rate mapping is (level + 1) * 10, strictly monotonically
increasing on levels below LEVELS, with value 10 at level 0 and 160 at level
LEVELS - 1, hence range 10..160 in steps of 10.  It is a pure function of
the level, so mapping the same level twice yields the same frame rate. -/
theorem frame_rate_mapping_props :
    (∀ level, level < LEVELS → frame_rate_from_level level = (level + 1) * 10) ∧
    (∀ l2, l2 < LEVELS → ∀ l1, l1 < l2 →
      frame_rate_from_level l1 < frame_rate_from_level l2) ∧
    frame_rate_from_level 0 = 10 ∧ frame_rate_from_level (LEVELS - 1) = 160 := by
  refine ⟨?_, ?_, by decide, by decide⟩
  · intro level h
    unfold frame_rate_from_level LEVELS at *
    rw [Nat.mod_eq_of_lt (by omega)]
  · intro l2 h2 l1 h1
    unfold frame_rate_from_level LEVELS at *
    rw [Nat.mod_eq_of_lt (by omega), Nat.mod_eq_of_lt (by omega)]
    omega

/-- C6 witness at levels 2 and 3. -/
theorem frame_rate_mapping_props_witness :
    frame_rate_from_level 3 = (3 + 1) * 10 ∧
    frame_rate_from_level 2 < frame_rate_from_level 3 :=
  ⟨frame_rate_mapping_props.1 3 (by decide),
   frame_rate_mapping_props.2.1 3 (by decide) 2 (by decide)⟩

/-- C7 counterexample: the shared state store is not initialized to levels
[15, 4, 6]; main.rs initializes RGB_LEVELS to [0; 3]. -/
theorem initialStore_counterexample :
    ¬ (initialStore.levels = ![15, 4, 6] ∧ initialStore.frame_rate = 100) := by
  intro h
  have h0 := congrFun h.1 0
  simp [initialStore] at h0

/-- C7 amended: the shared state store is initialized at startup to levels
[0, 0, 0] and frame rate 100 (main.rs lines 29 to 31); the default
[15, 4, 6] with frame rate 100 is the control-loop cached UiState
(ui.rs lines 53 to 58), not the shared store. -/
theorem initialStore_values :
    initialStore.levels = ![0, 0, 0] ∧ initialStore.frame_rate = 100 ∧
    uiStateDefault.levels = ![15, 4, 6] ∧ uiStateDefault.frame_rate = 100 :=
  ⟨rfl, rfl, rfl, rfl⟩

/-- C9: the tick time is 1000000 / (3 * frame_rate * LEVELS) in integer
division; for the initial frame rate 100 and every frame rate the control
loop can produce, the divisor is nonzero and the tick time strictly
positive; and each driver pass recomputes the tick time from the frame rate
read from the store. -/
theorem frame_tick_time_props :
    (∀ fr, (fr = 100 ∨ ∃ l, l < LEVELS ∧ fr = frame_rate_from_level l) →
      3 * fr * LEVELS ≠ 0 ∧ 0 < frame_tick_time fr) ∧
    (∀ rgb store, ((rgbRunPass rgb store).1).tick_time
      = frame_tick_time store.frame_rate) := by
  constructor
  · intro fr h
    have hfr : 10 ≤ fr ∧ fr ≤ 160 := by
      rcases h with h | ⟨l, hl, h⟩
      · omega
      · subst h
        unfold frame_rate_from_level LEVELS at *
        rw [Nat.mod_eq_of_lt (by omega)]
        omega
    unfold frame_tick_time LEVELS
    exact ⟨by omega, Nat.div_pos (by omega) (by omega)⟩
  · intro rgb store
    rfl

/-- C9 witness at frame rate 100. -/
theorem frame_tick_time_props_witness :
    3 * 100 * LEVELS ≠ 0 ∧ 0 < frame_tick_time 100 :=
  frame_tick_time_props.1 100 (Or.inl rfl)

/-- C5: from cached state levels [15, 4, 6] and frame rate 100, one
control-loop iteration with both buttons pressed and knob level 8 sets the
red level to 8, leaves green, blue and the frame rate unchanged, executes
the guarded write-back exactly once (one write of the levels into the
RGB_LEVELS mutex and one write of the unchanged frame rate into the
FRAME_RATE mutex) and prints exactly one status report; in general an
iteration performs the write-back and the report if and only if the value
computed for the selected target differs from the cached UiState value, and
otherwise leaves the store untouched. -/
theorem ui_iteration_effects :
    ((uiIteration uiStateDefault true true 8).state.levels = ![8, 4, 6] ∧
     (uiIteration uiStateDefault true true 8).state.frame_rate = 100 ∧
     (uiIteration uiStateDefault true true 8).rgbWrites = [![8, 4, 6]] ∧
     (uiIteration uiStateDefault true true 8).frWrites = [100] ∧
     (uiIteration uiStateDefault true true 8).reports = 1 ∧
     storeAfterUiIteration initialStore (uiIteration uiStateDefault true true 8)
       = { levels := ![8, 4, 6], frame_rate := 100 }) ∧
    (∀ st a b level store,
      ((uiIteration st a b level).reports = 1 ↔
        (match controlFromButtons (button_state a b) with
         | Control.redLed => level ≠ st.levels 0
         | Control.greenLed => level ≠ st.levels 1
         | Control.blueLed => level ≠ st.levels 2
         | Control.frameRate => frame_rate_from_level level ≠ st.frame_rate)) ∧
      (((uiIteration st a b level).reports = 1 ∧
        (uiIteration st a b level).rgbWrites = [(uiIteration st a b level).state.levels] ∧
        (uiIteration st a b level).frWrites = [(uiIteration st a b level).state.frame_rate] ∧
        storeAfterUiIteration store (uiIteration st a b level)
          = { levels := (uiIteration st a b level).state.levels,
              frame_rate := (uiIteration st a b level).state.frame_rate }) ∨
       ((uiIteration st a b level).reports = 0 ∧
        (uiIteration st a b level).rgbWrites = [] ∧
        (uiIteration st a b level).frWrites = [] ∧
        storeAfterUiIteration store (uiIteration st a b level) = store))) := by
  constructor
  · have hlev : (uiIteration uiStateDefault true true 8).state.levels = ![8, 4, 6] := by
      funext i
      fin_cases i <;> rfl
    refine ⟨hlev, rfl, ?_, rfl, rfl, ?_⟩
    · show [(uiIteration uiStateDefault true true 8).state.levels] = [![8, 4, 6]]
      rw [hlev]
    · show SharedState.mk ((uiIteration uiStateDefault true true 8).state.levels)
        ((uiIteration uiStateDefault true true 8).state.frame_rate)
        = SharedState.mk ![8, 4, 6] 100
      rw [hlev]
      rfl
  · intro st a b level store
    cases a <;> cases b
    · by_cases hc : frame_rate_from_level level ≠ st.frame_rate <;>
        simp [uiIteration, button_state, controlFromButtons, storeAfterUiIteration, hc]
    · by_cases hc : level ≠ st.levels 1 <;>
        simp [uiIteration, button_state, controlFromButtons, storeAfterUiIteration, hc]
    · by_cases hc : level ≠ st.levels 2 <;>
        simp [uiIteration, button_state, controlFromButtons, storeAfterUiIteration, hc]
    · by_cases hc : level ≠ st.levels 0 <;>
        simp [uiIteration, button_state, controlFromButtons, storeAfterUiIteration, hc]

/-- One frame.set call lights exactly its cell and keeps the rest. -/
theorem framePixelSet_eq (f : Frame) (c r c1 r1 : Fin 5) :
    framePixelSet f c r c1 r1 = true ↔ (c1 = c ∧ r1 = r) ∨ f c1 r1 = true := by
  unfold framePixelSet
  by_cases h : c1 = c ∧ r1 = r <;> simp [h]

/-- A cell is lit after lightColumn exactly when it was already lit or it is
one of the n bottom-up cells of the written column. -/
theorem lightColumn_eq (n : Nat) (f : Frame) (col c r : Fin 5) :
    lightColumn f col n c r = true ↔
      (c = col ∧ ∃ idx, idx < n ∧ (r : Nat) = 4 - idx) ∨ f c r = true := by
  induction n with
  | zero => simp [lightColumn]
  | succ m ih =>
      have hstep : lightColumn f col (m + 1)
          = framePixelSet (lightColumn f col m) col ⟨4 - m, by omega⟩ := by
        unfold lightColumn
        rw [List.range_succ, List.foldl_append]
        rfl
      rw [hstep, framePixelSet_eq, ih]
      constructor
      · rintro (⟨hc, hr⟩ | (⟨hc, idx, hidx, hr⟩ | hf))
        · exact Or.inl ⟨hc, m, by omega, by rw [hr]⟩
        · exact Or.inl ⟨hc, idx, by omega, hr⟩
        · exact Or.inr hf
      · rintro (⟨hc, idx, hidx, hr⟩ | hf)
        · rcases Nat.lt_or_ge idx m with hlt | hge
          · exact Or.inr (Or.inl ⟨hc, idx, hlt, hr⟩)
          · have hidx2 : idx = m := by omega
            subst hidx2
            refine Or.inl ⟨hc, ?_⟩
            apply Fin.ext
            exact hr
        · exact Or.inr (Or.inr hf)

/-- The bottom-up index set of a column of n cells, n at most 5, is exactly
the rows with index at least 5 - n. -/
theorem exists_idx_iff (n : Nat) (hn : n ≤ 5) (r : Fin 5) :
    (∃ idx, idx < n ∧ (r : Nat) = 4 - idx) ↔ 5 - n ≤ (r : Nat) := by
  have hr := r.isLt
  constructor
  · rintro ⟨idx, h1, h2⟩
    omega
  · intro h
    exact ⟨4 - (r : Nat), by omega, by omega⟩

/-- Number of rows of a 5-cell column with index at least 5 - n. -/
theorem filter_bottom_card (n : Nat) (hn : n ≤ 5) :
    (Finset.univ.filter (fun r : Fin 5 => 5 - n ≤ (r : Nat))).card = n := by
  interval_cases n <;> decide

/-- Channel lit count never exceeds the grid height for a level below
LEVELS. -/
theorem lit_leds_le (level : Nat) (h : level < LEVELS) : lit_leds level ≤ 5 := by
  unfold lit_leds
  have hq : (level : ℚ) * 5 / (LEVELS : ℚ) ≤ 5 := by
    unfold LEVELS at h ⊢
    rw [div_le_iff₀ (by norm_num)]
    have hc : (level : ℚ) ≤ 15 := by exact_mod_cast (by omega : level ≤ 15)
    push_cast
    nlinarith
  have hceil : ⌈(level : ℚ) * 5 / (LEVELS : ℚ)⌉ ≤ (5 : Int) :=
    Int.ceil_le.mpr (by exact_mod_cast hq)
  exact le_trans (Int.toNat_le_toNat hceil) (by decide)

/-- Frame-rate lit count never exceeds the grid height for frame rates in
10..160. -/
theorem frame_rate_leds_le (fr : Nat) (h1 : 10 ≤ fr) (h2 : fr ≤ 160) :
    frame_rate_leds fr ≤ 5 := by
  unfold frame_rate_leds
  have hq : ((fr : ℚ) - 10) * 5 / (160 - 10) ≤ 5 := by
    rw [div_le_iff₀ (by norm_num)]
    have hc : (fr : ℚ) ≤ 160 := by exact_mod_cast h2
    nlinarith
  have hceil : ⌈((fr : ℚ) - 10) * 5 / (160 - 10)⌉ ≤ (5 : Int) :=
    Int.ceil_le.mpr (by exact_mod_cast hq)
  exact le_trans (Int.toNat_le_toNat hceil) (by decide)

/-- The channel lit count is monotone in the level. -/
theorem lit_leds_mono {l1 l2 : Nat} (h : l1 ≤ l2) : lit_leds l1 ≤ lit_leds l2 := by
  unfold lit_leds
  apply Int.toNat_le_toNat
  apply Int.ceil_mono
  have hc : (l1 : ℚ) ≤ (l2 : ℚ) := by exact_mod_cast h
  have hL : (0 : ℚ) < (LEVELS : ℚ) := by norm_num [LEVELS]
  gcongr

/-- The channel lit count saturates the grid height at the top level. -/
theorem lit_leds_top : lit_leds (LEVELS - 1) = 5 := by
  unfold lit_leds LEVELS
  have hq : ((16 - 1 : Nat) : ℚ) * 5 / ((16 : Nat) : ℚ) = 75 / 16 := by norm_num
  rw [hq]
  have hceil : ⌈(75 / 16 : ℚ)⌉ = (5 : Int) := by
    rw [Int.ceil_eq_iff]
    constructor <;> norm_num
  rw [hceil]
  rfl

/-- update_display unfolded to its four column writes. -/
theorem update_display_eq (levels : Fin 3 → Nat) (fr : Nat) :
    update_display levels fr =
      lightColumn
        (lightColumn
          (lightColumn
            (lightColumn emptyFrame 0 (lit_leds (levels 0)))
            1 (lit_leds (levels 1)))
          2 (lit_leds (levels 2)))
        4 (frame_rate_leds fr) := rfl

/-- A Boolean column predicate that agrees with the bottom-up membership
predicate has exactly n lit cells. -/
theorem card_of_bottom (p : Fin 5 → Bool) (n : Nat) (hn : n ≤ 5)
    (hiff : ∀ r, p r = true ↔ 5 - n ≤ (r : Nat)) :
    (Finset.univ.filter (fun r => p r = true)).card = n := by
  have hset : (Finset.univ.filter (fun r => p r = true))
      = (Finset.univ.filter (fun r : Fin 5 => 5 - n ≤ (r : Nat))) :=
    Finset.filter_congr (fun x _ => by rw [hiff])
  rw [hset]
  exact filter_bottom_card n hn

/-- Cell membership of the full rendered frame: a cell is lit exactly when
its column is one of the four written columns and its row is within that
column's bottom-up count. -/
theorem update_display_spec (levels : Fin 3 → Nat) (fr : Nat) (c r : Fin 5) :
    update_display levels fr c r = true ↔
      ((c : Nat) = 4 ∧ ∃ idx, idx < frame_rate_leds fr ∧ (r : Nat) = 4 - idx) ∨
      ((c : Nat) = 2 ∧ ∃ idx, idx < lit_leds (levels 2) ∧ (r : Nat) = 4 - idx) ∨
      ((c : Nat) = 1 ∧ ∃ idx, idx < lit_leds (levels 1) ∧ (r : Nat) = 4 - idx) ∨
      ((c : Nat) = 0 ∧ ∃ idx, idx < lit_leds (levels 0) ∧ (r : Nat) = 4 - idx) := by
  rw [update_display_eq]
  simp only [lightColumn_eq, emptyFrame, Bool.false_eq_true, or_false]
  constructor
  · rintro (⟨hc, he⟩ | ⟨hc, he⟩ | ⟨hc, he⟩ | ⟨hc, he⟩)
    · exact Or.inl ⟨by rw [hc]; rfl, he⟩
    · exact Or.inr (Or.inl ⟨by rw [hc]; rfl, he⟩)
    · exact Or.inr (Or.inr (Or.inl ⟨by rw [hc]; rfl, he⟩))
    · exact Or.inr (Or.inr (Or.inr ⟨by rw [hc]; rfl, he⟩))
  · rintro (⟨hc, he⟩ | ⟨hc, he⟩ | ⟨hc, he⟩ | ⟨hc, he⟩)
    · exact Or.inl ⟨Fin.ext hc, he⟩
    · exact Or.inr (Or.inl ⟨Fin.ext hc, he⟩)
    · exact Or.inr (Or.inr (Or.inl ⟨Fin.ext hc, he⟩))
    · exact Or.inr (Or.inr (Or.inr ⟨Fin.ext hc, he⟩))

/-- C8: for all channel levels below LEVELS, the readout lights
ceil(level * 5 / LEVELS) cells in that channel column (column 0 for red, 1
for green, 2 for blue), from the bottom row upward; the lit count is
monotone in the level and reaches the full height 5 at level LEVELS - 1; the
frame-rate column (column 4) lights ceil((frame_rate - 10) * 5 / 150)
cells. -/
theorem readout_rendering (levels : Fin 3 → Nat) (fr : Nat)
    (hlev : ∀ i, levels i < LEVELS) (hfr1 : 10 ≤ fr) (hfr2 : fr ≤ 160) :
    (∀ r : Fin 5, update_display levels fr 0 r = true ↔
      5 - lit_leds (levels 0) ≤ (r : Nat)) ∧
    (∀ r : Fin 5, update_display levels fr 1 r = true ↔
      5 - lit_leds (levels 1) ≤ (r : Nat)) ∧
    (∀ r : Fin 5, update_display levels fr 2 r = true ↔
      5 - lit_leds (levels 2) ≤ (r : Nat)) ∧
    (Finset.univ.filter (fun r : Fin 5 =>
      update_display levels fr 0 r = true)).card = lit_leds (levels 0) ∧
    (Finset.univ.filter (fun r : Fin 5 =>
      update_display levels fr 1 r = true)).card = lit_leds (levels 1) ∧
    (Finset.univ.filter (fun r : Fin 5 =>
      update_display levels fr 2 r = true)).card = lit_leds (levels 2) ∧
    (∀ l1 l2, l1 ≤ l2 → lit_leds l1 ≤ lit_leds l2) ∧
    lit_leds (LEVELS - 1) = 5 ∧
    (∀ r : Fin 5, update_display levels fr 4 r = true ↔
      5 - frame_rate_leds fr ≤ (r : Nat)) ∧
    (Finset.univ.filter (fun r : Fin 5 =>
      update_display levels fr 4 r = true)).card = frame_rate_leds fr := by
  have h4 := frame_rate_leds_le fr hfr1 hfr2
  have hcol0 : ∀ r : Fin 5, update_display levels fr 0 r = true ↔
      5 - lit_leds (levels 0) ≤ (r : Nat) := by
    intro r
    rw [update_display_spec, show ((0 : Fin 5) : Nat) = 0 from rfl]
    norm_num
    exact (exists_idx_iff _ (lit_leds_le _ (hlev 0)) r).trans (by omega)
  have hcol1 : ∀ r : Fin 5, update_display levels fr 1 r = true ↔
      5 - lit_leds (levels 1) ≤ (r : Nat) := by
    intro r
    rw [update_display_spec, show ((1 : Fin 5) : Nat) = 1 from rfl]
    norm_num
    exact (exists_idx_iff _ (lit_leds_le _ (hlev 1)) r).trans (by omega)
  have hcol2 : ∀ r : Fin 5, update_display levels fr 2 r = true ↔
      5 - lit_leds (levels 2) ≤ (r : Nat) := by
    intro r
    rw [update_display_spec, show ((2 : Fin 5) : Nat) = 2 from rfl]
    norm_num
    exact (exists_idx_iff _ (lit_leds_le _ (hlev 2)) r).trans (by omega)
  have hcol4 : ∀ r : Fin 5, update_display levels fr 4 r = true ↔
      5 - frame_rate_leds fr ≤ (r : Nat) := by
    intro r
    rw [update_display_spec, show ((4 : Fin 5) : Nat) = 4 from rfl]
    norm_num
    exact (exists_idx_iff _ h4 r).trans (by omega)
  exact ⟨hcol0, hcol1, hcol2,
    card_of_bottom _ _ (lit_leds_le _ (hlev 0)) hcol0,
    card_of_bottom _ _ (lit_leds_le _ (hlev 1)) hcol1,
    card_of_bottom _ _ (lit_leds_le _ (hlev 2)) hcol2,
    fun l1 l2 h => lit_leds_mono h, lit_leds_top, hcol4,
    card_of_bottom _ _ h4 hcol4⟩

/-- C8 witness at levels [15, 4, 6] and frame rate 100. -/
theorem readout_rendering_witness :
    10 ≤ 100 ∧ 100 ≤ 160 ∧ lit_leds (LEVELS - 1) = 5 :=
  ⟨by norm_num, by norm_num,
   (readout_rendering ![15, 4, 6] 100 (by intro i; fin_cases i <;> decide)
     (by norm_num) (by norm_num)).2.2.2.2.2.2.2.1⟩

end RgbCal
